import Mathlib

/-
  Verification development for the djangbone view module
  (src/djangbone/views.py).

  The Python classes BackboneAPIView / ModelAPIView / CustomModelAPIView are
  shallowly embedded as Lean functions.  Conventions used throughout:

  * A Django record row is a `Record`: its primary key plus the mapping of
    column names to (already stringified) values as handed back by the data
    source; `queryset.values()` / `model_to_dict` both expose that mapping.
  * Python dicts whose keys are strings are association lists
    (`List (String × String)`), preserving insertion order like Python dicts.
  * A value of `Option X` models a Python value that may be `None` / absent,
    and, for results, `none` models an uncaught Python exception where noted.
  * `PyResult` distinguishes a normal return from an uncaught exception
    (Django turns the latter into a 500, never into the handler's responses).
  * Machine integers do not occur: Python ints are unbounded, so `Int`/`Nat`
    are exact models.
-/

namespace Djangbone

/-- One persisted record: primary key plus the column-name-to-value mapping
the data source reports for it (the mapping normally contains an "id"
column as well, mirroring `queryset.values()`). -/
structure Record where
  pk : Nat
  fields : List (String × String)
deriving DecidableEq, Repr

/-- A Python string-keyed dict, in insertion order. -/
abbrev Data := List (String × String)

/-- `d.get(k)` on a Python dict modelled as an association list. -/
def dataGet (d : Data) (k : String) : Option String :=
  (d.find? (fun kv => kv.1 == k)).map (fun kv => kv.2)

/-- `k in d` on a Python dict modelled as an association list. -/
def hasKey (d : Data) (k : String) : Bool :=
  d.any (fun kv => kv.1 == k)

/-- `d[k] = v` on a Python dict: overwrite in place if the key exists,
append otherwise (Python dicts keep the original insertion position). -/
def setKey (d : Data) (k v : String) : Data :=
  if d.any (fun kv => kv.1 == k) then
    d.map (fun kv => if kv.1 == k then (k, v) else kv)
  else
    d ++ [(k, v)]

/-- Python truthiness of an optional URL-keyword string (`if id:`):
`None` and the empty string are falsy. -/
def truthyIdOpt : Option String → Bool
  | none => false
  | some s => !s.isEmpty

/-- All-decimal-digit parse of a character run; `none` when empty or when a
non-digit appears. -/
def parseNat (cs : List Char) : Option Nat :=
  cs.foldl
    (fun acc c =>
      match acc with
      | none => none
      | some n => if c.isDigit then some (n * 10 + (c.toNat - 48)) else none)
    (if cs.isEmpty then none else some 0)

/-- `int(s)` for a string: strip surrounding whitespace, accept an optional
sign followed by decimal digits; `none` models the `ValueError` raised on
any other input. -/
def pyInt (s : String) : Option Int :=
  let cs := s.data.dropWhile (fun c => c.isWhitespace)
  let cs := ((cs.reverse.dropWhile (fun c => c.isWhitespace)).reverse)
  match cs with
  | [] => none
  | c :: rest =>
    if c = '-' then (parseNat rest).map (fun n => -(n : Int))
    else if c = '+' then (parseNat rest).map (fun n => (n : Int))
    else (parseNat cs).map (fun n => (n : Int))

/-- Result of `serialize_qs`: a single JSON object (dict) or a JSON array
of objects, the two shapes the views hand to the JSON encoder. -/
inductive Serialized where
  | single (d : Data)
  | many (l : List Data)
deriving DecidableEq, Repr

/-- A normal Python return versus an uncaught exception escaping the view
(for example the `IndexError` of `qs[0]` on an empty queryset, or the
`AssertionError` Django raises on negative queryset slicing). -/
inductive PyResult (α : Type) where
  | ok (a : α)
  | exn
deriving DecidableEq, Repr

/-- `queryset.values(*serialize_fields)` on one row: keep only the named
columns; with no field tuple configured (`None`), keep every column. -/
def projectFields (fs : Option (List String)) (r : Record) : Data :=
  match fs with
  | none => r.fields
  | some l => r.fields.filter (fun kv => l.contains kv.1)

/-- `model_to_dict(item)`: the record's column mapping (the model-form
machinery is an external collaborator; its output is the field mapping). -/
def model_to_dict (r : Record) : Data :=
  r.fields

/-- The pagination-relevant class attributes of ModelAPIView:
`serialize_fields` (None or a tuple of names), `page_size`
(`isinstance(page_size, int)` gates pagination, hence `Option Int`),
and `page_param_name` (default "p"). -/
structure MCfg where
  serialize_fields : Option (List String)
  page_size : Option Int
  page_param_name : String
deriving DecidableEq, Repr

/-- The page number the view works with: `int(request.GET.get(name, 1))`.
An absent parameter defaults to the integer 1; a present one goes through
`int()`, whose `ValueError` on non-numeric text is `none`. -/
def pageNumber (param : Option String) : Option Int :=
  match param with
  | none => some 1
  | some s => pyInt s

/-- The slice offset computed inside `serialize_qs`:
`offset = (page_number - 1) * page_size`, with the enclosing
`except ValueError: offset = 0` for non-numeric page parameters.
There is no clamping of negative page numbers. -/
def computeOffset (page_size : Int) (param : Option String) : Int :=
  match pageNumber param with
  | some n => (n - 1) * page_size
  | none => 0

/-- `qs[a:b]` on a Django queryset: Django refuses negative slice bounds
(`AssertionError: Negative indexing is not supported`), modelled as `none`;
for non-negative bounds it is the usual half-open window of the ordered
rows. -/
def qsSlice {α : Type} (l : List α) (a b : Int) : Option (List α) :=
  if a < 0 ∨ b < 0 then none
  else some ((l.take b.toNat).drop a.toNat)

/-- `ModelAPIView.serialize_qs(queryset, single_object)` with the request's
URL keyword `id` and GET parameters made explicit.  Projects each row with
`values(*serialize_fields)`; for single-object requests returns `values[0]`
or the empty dict; for collection requests applies the pagination slice
when `page_size` is an int.  `none` models an uncaught slicing exception. -/
def ModelAPIView.serialize_qs (cfg : MCfg) (kwargsId : Option String)
    (single_object : Bool) (qs : List Record) (getParams : Data) :
    Option Serialized :=
  let values := qs.map (projectFields cfg.serialize_fields)
  if truthyIdOpt kwargsId || single_object then
    some (.single (values.headD []))
  else
    match cfg.page_size with
    | some k =>
      let off := computeOffset k (dataGet getParams cfg.page_param_name)
      (qsSlice values off (off + k)).map Serialized.many
    | none => some (.many values)

/-- `CustomModelAPIView.serialize_item(item)`: `model_to_dict`, delete the
keys outside `serialize_fields` when a field tuple is configured, then
unconditionally set `item_dict["id"] = item.pk`. -/
def CustomModelAPIView.serialize_item (fs : Option (List String))
    (r : Record) : Data :=
  let d := model_to_dict r
  let d := match fs with
    | some l => d.filter (fun kv => l.contains kv.1)
    | none => d
  setKey d "id" (toString r.pk)

/-- `CustomModelAPIView.serialize_qs(queryset, single_object)`.  The
single-object branch takes `queryset[0]` with no emptiness guard (`none`
models the `IndexError` on an empty queryset); the collection branch
slices like the base class and maps `serialize_item` over the page. -/
def CustomModelAPIView.serialize_qs (cfg : MCfg) (kwargsId : Option String)
    (single_object : Bool) (qs : List Record) (getParams : Data) :
    Option Serialized :=
  if single_object || truthyIdOpt kwargsId then
    qs.head?.map (fun r =>
      Serialized.single (CustomModelAPIView.serialize_item cfg.serialize_fields r))
  else
    let pq := match cfg.page_size with
      | some k =>
        let off := computeOffset k (dataGet getParams cfg.page_param_name)
        qsSlice qs off (off + k)
      | none => some qs
    pq.map (fun l =>
      Serialized.many (l.map (CustomModelAPIView.serialize_item cfg.serialize_fields)))

/-- An HTTP response as the view builds it: body text, status code and the
content type passed to `HttpResponse`. -/
structure Resp where
  body : String
  status : Nat
  mimetype : String
deriving DecidableEq, Repr

/-- The text `json_encoder.encode(\x7b"error": data\x7d)` produces inside
`error_response`; `data` is the already-encoded error payload, `none`
standing for a falsy payload (`None` or an empty dict), which yields the
empty body instead. -/
def jsonErrorBody (data : Option String) : String :=
  match data with
  | some s => "\x7b\"error\": " ++ s ++ "\x7d"
  | none => ""

/-- `BackboneAPIView.success_response(data)`: encode truthy data (here
`data` is the encoder's output, `none` = falsy payload → empty body);
multipart requests get `text/plain`, everything else `application/json`;
the status is the `HttpResponse` default 200. -/
def success_response (request_type : String) (data : Option String) : Resp :=
  let obj := match data with
    | some s => s
    | none => ""
  let mt := if request_type == "form-multipart" then "text/plain"
            else "application/json"
  ⟨obj, 200, mt⟩

/-- `BackboneAPIView.error_response(data, status)`: for multipart requests
the encoded error text is wrapped in the fixed textarea fragment carrying
the real status and returned with HTTP 200 and `text/html`; otherwise the
error text is returned as `application/json` with the given status. -/
def error_response (request_type : String) (data : Option String)
    (status : Nat) : Resp :=
  let errors := jsonErrorBody data
  if request_type == "form-multipart" then
    ⟨"<textarea status=\x27" ++ toString status ++ "\x27>" ++ errors
      ++ "</textarea>", 200, "text/html"⟩
  else
    ⟨errors, status, "application/json"⟩

/-- The transport-level request the view receives: HTTP method, declared
content type, the parsed POST fields, the parsed uploaded files, the JSON
decode of the raw body (`none` = malformed JSON, a `ValueError`), and the
parsed GET query parameters. -/
structure Request where
  method : String
  contentType : String
  postData : Data
  files : Data
  rawBodyJson : Option Data
  getParams : Data

/-- `haystack.find(needle) != -1`: substring occurrence test. -/
def strContains (h n : String) : Bool :=
  (h.splitOn n).length != 1

/-- `BackboneAPIView.get_request_data(request)`: resolve the request kind
from the content type and produce `(request_type, data, files)`; `none`
models the `ValueError` of decoding a malformed JSON body. -/
def get_request_data (r : Request) : Option (String × Data × Option Data) :=
  if strContains r.contentType "application/x-www-form-urlencoded" then
    some ("form", r.postData, none)
  else if strContains r.contentType "multipart/form-data" then
    some ("form-multipart", r.postData, some r.files)
  else
    match r.rawBodyJson with
    | some d => some ("json", d, none)
    | none => none

/-- The `(success, data)` pair `create`/`update` return, as the `_post` and
`_put` handlers consume it: on success the encoded payload (`none` = falsy
payload), on failure `data.get("errors", \x7b\x7d)` (already encoded, `none`
when absent or empty) and `data.get("status", 400)`. -/
inductive Outcome where
  | ok (payload : Option String)
  | fail (errors : Option String) (status : Nat)
deriving DecidableEq, Repr

/-- The overridable operation methods of a concrete view subclass, as the
abstract `BackboneAPIView` handlers call them. -/
structure Impl where
  read_single_item : String → PyResult (Option Serialized)
  read_collection : PyResult (Option Serialized)
  create : Data → Option Data → Outcome
  update : String → Data → Option Data → Outcome
  delete : String → Bool

/-- `BackboneAPIView.read(id)`: a truthy id goes to `read_single_item`,
otherwise `read_collection`. -/
def BackboneAPIView.read (impl : Impl) (id : Option String) :
    PyResult (Option Serialized) :=
  match id with
  | some s => if s.isEmpty then impl.read_collection
              else impl.read_single_item s
  | none => impl.read_collection

/-- Python truthiness of a read result (`if data:`): an empty dict and an
empty list are falsy. -/
def serializedTruthy : Serialized → Bool
  | .single d => !d.isEmpty
  | .many l => !l.isEmpty

/-- JSON text of one serialized dict (the DjangboneJSONEncoder output on a
string-valued mapping). -/
def encodeJsonDict (d : Data) : String :=
  "\x7b" ++ String.intercalate ", "
    (d.map (fun kv => "\"" ++ kv.1 ++ "\": " ++ kv.2)) ++ "\x7d"

/-- JSON text of a read result. -/
def encodeSerialized : Serialized → String
  | .single d => encodeJsonDict d
  | .many l => "[" ++ String.intercalate ", " (l.map encodeJsonDict) ++ "]"

/-- What dispatching can produce: a built response, the `Http404` exception
`_put` raises on a missing id (the framework renders it as a 404 page), or
an uncaught exception (a 500). -/
inductive HttpOutcome where
  | resp (r : Resp)
  | raised404
  | exn
deriving DecidableEq, Repr

/-- The HTTP status the client observes, when one is defined. -/
def HttpOutcome.statusOf : HttpOutcome → Option Nat
  | .resp r => some r.status
  | .raised404 => some 404
  | .exn => none

/-- `http_method_not_allowed`: Django's `HttpResponseNotAllowed`, an empty
405 response. -/
def methodNotAllowed : HttpOutcome :=
  .resp ⟨"", 405, "text/html"⟩

/-- `BackboneAPIView._get`: read (single item or collection by id
truthiness), then 200 with the encoded data if truthy, else an empty-body
404.  GET never runs `get_request_data`, so `request_type` stays at the
class default "json". -/
def BackboneAPIView._get (impl : Impl) (kwargsId : Option String) :
    HttpOutcome :=
  match BackboneAPIView.read impl kwargsId with
  | .exn => .exn
  | .ok none => .resp (error_response "json" none 404)
  | .ok (some s) =>
    if serializedTruthy s then
      .resp (success_response "json" (some (encodeSerialized s)))
    else
      .resp (error_response "json" none 404)

/-- `BackboneAPIView._post`: decode the body (decode failure → 400), run
`create`, then success or error response under the detected request kind. -/
def BackboneAPIView._post (impl : Impl) (r : Request) : HttpOutcome :=
  match get_request_data r with
  | none => .resp (error_response "json" none 400)
  | some (rt, d, f) =>
    match impl.create d f with
    | .ok p => .resp (success_response rt p)
    | .fail e s => .resp (error_response rt e s)

/-- `BackboneAPIView._put`: `kwargs["id"]` first — a missing id raises
`Http404`; then decode the body (decode failure → a plain 400 response
with body "Invalid POST DATA"), run `update`, and answer like `_post`. -/
def BackboneAPIView._put (impl : Impl) (r : Request)
    (kwargsId : Option String) : HttpOutcome :=
  match kwargsId with
  | none => .raised404
  | some id =>
    match get_request_data r with
    | none => .resp ⟨"Invalid POST DATA", 400, "text/html"⟩
    | some (rt, d, f) =>
      match impl.update id d f with
      | .ok p => .resp (success_response rt p)
      | .fail e s => .resp (error_response rt e s)

/-- `BackboneAPIView._delete`: no id → the fixed 405 with body "DELETE is
not supported for collections"; otherwise `delete(id)` and an empty 200 on
success or an empty 404 on failure. -/
def BackboneAPIView._delete (impl : Impl) (kwargsId : Option String) :
    HttpOutcome :=
  match kwargsId with
  | none => .resp ⟨"DELETE is not supported for collections", 405, "text/html"⟩
  | some id =>
    if impl.delete id then .resp (success_response "json" none)
    else .resp (error_response "json" none 404)

/-- `s.lower()` on a string: lower-case every character. -/
def pyLower (s : String) : String :=
  String.mk (s.data.map Char.toLower)

/-- Django's `View.http_method_names`. -/
def http_method_names : List String :=
  ["get", "post", "put", "delete", "head", "options", "trace"]

/-- The effective verb after override resolution: the transport method
lower-cased, except that a POST consults the parsed POST field "_method"
(defaulting to "post") and lower-cases its value. -/
def effectiveVerb (r : Request) : String :=
  let m := pyLower r.method
  if m == "post" then pyLower ((dataGet r.postData "_method").getD "post")
  else m

/-- `BackboneAPIView.dispatch`: select the handler for the effective verb;
verbs outside `http_method_names`, and members without a `_verb` handler
(head/options/trace), fall to `http_method_not_allowed`. -/
def BackboneAPIView.dispatch (impl : Impl) (r : Request)
    (kwargsId : Option String) : HttpOutcome :=
  let v := effectiveVerb r
  if http_method_names.contains v then
    if v == "get" then BackboneAPIView._get impl kwargsId
    else if v == "post" then BackboneAPIView._post impl r
    else if v == "put" then BackboneAPIView._put impl r kwargsId
    else if v == "delete" then BackboneAPIView._delete impl kwargsId
    else methodNotAllowed
  else methodNotAllowed

/-- The Form collaborator's verdict when a bound form is validated:
`is_valid()` plus `save()` yielding the saved record, or `form.errors`. -/
inductive FormResult where
  | valid (saved : Record)
  | invalid (errors : Data)
deriving DecidableEq, Repr

/-- The `(success, data)` pair `ModelAPIView.create`/`update` actually
build: `(True, serialize_qs(wrapper_qs, single_object=True))` — an
`Option Serialized` because the serializer may raise — or
`(False, \x7b"status": s\x7d)` optionally carrying `form.errors`. -/
inductive CUOutcome where
  | ok (payload : Option Serialized)
  | fail (status : Nat) (errors : Option Data)
deriving DecidableEq, Repr

/-- `ModelAPIView.create(data, files)`.  `has_add_form` is whether
`add_form_class` is configured; `perm` is `user_has_perm`; `validate` is
the add-form collaborator; `refetch` is `base_queryset.filter(id=new.id)`
evaluated after the save.  Order as in the source: no form → 501, denied
`create` → 403, invalid form → 400 with the field errors, valid form →
success with the re-fetched record serialized as a single object. -/
def ModelAPIView.create (cfg : MCfg) (has_add_form : Bool)
    (perm : Option Record → String → Bool)
    (validate : Data → Option Data → FormResult)
    (refetch : Nat → List Record) (getParams : Data)
    (data : Data) (files : Option Data) : CUOutcome :=
  if !has_add_form then .fail 501 none
  else if !(perm none "create") then .fail 403 none
  else
    match validate data files with
    | .valid saved =>
      .ok (ModelAPIView.serialize_qs cfg none true (refetch saved.pk) getParams)
    | .invalid errs => .fail 400 (some errs)

/-- `ModelAPIView.update(id, data, files)`.  `has_edit_form` is whether
`edit_form_class` is configured; `base_qs` is `base_queryset`; `validate`
is the edit-form collaborator bound to the fetched instance; `refetch` is
the post-save `base_queryset.filter(id=item.id)`.  Order as in the source:
no form → 501, `filter(pk=id)` not exactly one row → 404, denied `update`
→ 404, invalid form → 400 with errors, valid form → success. -/
def ModelAPIView.update (cfg : MCfg) (has_edit_form : Bool)
    (base_qs : List Record) (perm : Option Record → String → Bool)
    (validate : Data → Option Data → Record → FormResult)
    (refetch : Nat → List Record) (getParams : Data)
    (id : Nat) (data : Data) (files : Option Data) : CUOutcome :=
  if !has_edit_form then .fail 501 none
  else
    match base_qs.filter (fun r => r.pk == id) with
    | [inst] =>
      if !(perm (some inst) "update") then .fail 404 none
      else
        match validate data files inst with
        | .valid saved =>
          .ok (ModelAPIView.serialize_qs cfg none true (refetch saved.pk) getParams)
        | .invalid errs => .fail 400 (some errs)
    | _ => .fail 404 none

/-- `ModelAPIView.read_collection()`: the permission check runs against
`qs[0]` before anything else — on an empty queryset that indexing raises
(`exn`); a denial returns `None`; otherwise the whole queryset is
serialized as a collection (whose slicing may itself raise). -/
def ModelAPIView.read_collection (cfg : MCfg) (base_qs : List Record)
    (perm : Option Record → String → Bool) (getParams : Data) :
    PyResult (Option Serialized) :=
  match base_qs.head? with
  | none => .exn
  | some first =>
    if !(perm (some first) "read_collection") then .ok none
    else
      match ModelAPIView.serialize_qs cfg none false base_qs getParams with
      | some s => .ok (some s)
      | none => .exn

/-! Concrete fixtures used by witnesses and counterexamples. -/

/-- A configuration with no field restriction and no pagination. -/
def cfg0 : MCfg := ⟨none, none, "p"⟩

/-- A configuration with pagination at page size 2. -/
def cfgPag : MCfg := ⟨none, some 2, "p"⟩

/-- One concrete record. -/
def rec1 : Record := ⟨1, [("id", "1")]⟩

/-- A three-record data source. -/
def recs3 : List Record :=
  [⟨1, [("id", "1")]⟩, ⟨2, [("id", "2")]⟩, ⟨3, [("id", "3")]⟩]

/-- An authorizer that denies every action. -/
def permDenyAll : Option Record → String → Bool := fun _ _ => false

/-- An authorizer that allows every action. -/
def permAllowAll : Option Record → String → Bool := fun _ _ => true

/-- An add-form collaborator that always reports validation failure. -/
def addFormInvalid : Data → Option Data → FormResult := fun _ _ => .invalid []

/-- An edit-form collaborator that always reports validation failure. -/
def editFormInvalid : Data → Option Data → Record → FormResult :=
  fun _ _ _ => .invalid []

/-- A post-save refetch that finds nothing. -/
def refetchNone : Nat → List Record := fun _ => []

/-- A minimal concrete view implementation. -/
def impl0 : Impl :=
  ⟨fun _ => .ok none, .ok none, fun _ _ => .fail none 400,
   fun _ _ _ => .fail none 400, fun _ => false⟩

/-- A view implementation whose reads succeed with empty payloads. -/
def implEmptyRead : Impl :=
  ⟨fun _ => .ok (some (.single [])), .ok (some (.many [])),
   fun _ _ => .fail none 400, fun _ _ _ => .fail none 400, fun _ => false⟩

/-- A native PUT request with a well-formed empty JSON body. -/
def putReq : Request := ⟨"PUT", "application/json", [], [], some [], []⟩

/-! Helper lemmas shared by the claim theorems. -/

/-- Setting a key on a dict makes the key present. -/
theorem hasKey_setKey (d : Data) (k v : String) :
    hasKey (setKey d k v) k = true := by
  unfold setKey hasKey
  by_cases h : d.any (fun kv => kv.1 == k) = true
  · rw [if_pos h]
    rcases List.any_eq_true.mp h with ⟨x, hx, hpx⟩
    apply List.any_eq_true.mpr
    refine ⟨(k, v), ?_, by simp⟩
    rw [List.mem_map]
    exact ⟨x, hx, by simp [hpx]⟩
  · rw [if_neg h, List.any_append]
    simp

/-- Filtering a dict down to keys from a list that does not mention "id"
leaves no "id" key. -/
theorem hasKey_filter_id (flds : Data) (l : List String)
    (h : l.contains "id" = false) :
    hasKey (flds.filter (fun kv => l.contains kv.1)) "id" = false := by
  unfold hasKey
  rw [Bool.eq_false_iff]
  intro hcontra
  rcases List.any_eq_true.mp hcontra with ⟨x, hx, hpx⟩
  rw [List.mem_filter] at hx
  have hxid : x.1 = "id" := beq_iff_eq.mp hpx
  have hcond := hx.2
  rw [hxid] at hcond
  rw [h] at hcond
  exact Bool.false_ne_true hcond

/-- A non-negative Django slice `l[a : a + k]` is drop-`a`-then-take-`k`. -/
theorem qsSlice_eq_drop_take {α : Type} (l : List α) (a k : Int)
    (ha : 0 ≤ a) (hk : 0 ≤ k) :
    qsSlice l a (a + k) = some ((l.drop a.toNat).take k.toNat) := by
  unfold qsSlice
  rw [if_neg (by omega)]
  congr 1
  rw [List.drop_take]
  congr 1
  omega

/-! Claim theorems. -/

/-- C1 counterexample: with FieldSet ("name",), `ModelAPIView.serialize_qs`
serializes a record that does have an id column into a mapping without the
identifier field — the claim's universal statement fails on the
`values(*serialize_fields)` serializer. -/
theorem C1_counterexample :
    ModelAPIView.serialize_qs ⟨some ["name"], none, "p"⟩ (some "1") false
      [⟨1, [("id", "1"), ("name", "bob")]⟩] []
      = some (.single [("name", "bob")])
    ∧ hasKey [("name", "bob")] "id" = false := by
  decide

/-- C1 (amended): only `CustomModelAPIView.serialize_item` always includes
the identifier field; `ModelAPIView.serialize_qs` projects a record to
exactly the configured FieldSet, so a FieldSet that does not list "id"
yields a mapping without the identifier. -/
theorem C1_amended_identifier_field (fs : Option (List String)) (r : Record)
    (l : List String) (h : l.contains "id" = false) :
    hasKey (CustomModelAPIView.serialize_item fs r) "id" = true
    ∧ hasKey (projectFields (some l) r) "id" = false := by
  constructor
  · show hasKey (setKey _ "id" (toString r.pk)) "id" = true
    exact hasKey_setKey _ _ _
  · unfold projectFields
    exact hasKey_filter_id r.fields l h

/-- C1 witness: the amended statement evaluated at FieldSet ("name",) and a
concrete record. -/
theorem C1_witness :
    hasKey (CustomModelAPIView.serialize_item (some ["name"])
      ⟨1, [("id", "1"), ("name", "bob")]⟩) "id" = true
    ∧ hasKey (projectFields (some ["name"])
      ⟨1, [("id", "1"), ("name", "bob")]⟩) "id" = false :=
  C1_amended_identifier_field (some ["name"])
    ⟨1, [("id", "1"), ("name", "bob")]⟩ ["name"] (by decide)

/-- C2 counterexample: with page_size 2 and page parameter "0" the computed
slice offset is -2, not the claimed (max(0,1)-1)*2 = 0, and the collection
read does not return the offset-0 slice — the negative slice raises. -/
theorem C2_counterexample :
    computeOffset 2 (some "0") = -2
    ∧ computeOffset 2 (some "0") ≠ (max (0 : Int) 1 - 1) * 2
    ∧ ModelAPIView.serialize_qs cfgPag none false recs3 [("p", "0")] = none := by
  decide

/-- C2 (amended): with pagination enabled the offset is
(page_number - 1) * page_size with no clamping: for page_number ≥ 1 the
returned list is the slice [offset, offset + page_size) of the ordered
(projected) records, a non-numeric page parameter yields offset 0 (the
first page), and for page_number < 1 the offset is negative and the
operation raises instead of using offset 0. -/
theorem C2_amended_pagination (cfg : MCfg) (qs : List Record) (gp : Data)
    (k : Int) (hps : cfg.page_size = some k) (hk : 0 ≤ k) :
    (∀ n : Int, pageNumber (dataGet gp cfg.page_param_name) = some n → 1 ≤ n →
      ModelAPIView.serialize_qs cfg none false qs gp
        = some (.many (((qs.map (projectFields cfg.serialize_fields)).drop
            ((n - 1) * k).toNat).take k.toNat)))
    ∧ (pageNumber (dataGet gp cfg.page_param_name) = none →
      ModelAPIView.serialize_qs cfg none false qs gp
        = some (.many ((qs.map (projectFields cfg.serialize_fields)).take
            k.toNat)))
    ∧ (∀ n : Int, pageNumber (dataGet gp cfg.page_param_name) = some n →
        n < 1 → 0 < k →
      ModelAPIView.serialize_qs cfg none false qs gp = none)
    ∧ (∀ n : Int, pageNumber (dataGet gp cfg.page_param_name) = some n → 1 ≤ n →
      CustomModelAPIView.serialize_qs cfg none false qs gp
        = some (.many (((qs.drop ((n - 1) * k).toNat).take k.toNat).map
            (CustomModelAPIView.serialize_item cfg.serialize_fields)))) := by
  refine ⟨?_, ?_, ?_, ?_⟩
  · intro n hn h1
    have hoff : 0 ≤ (n - 1) * k := mul_nonneg (by omega) hk
    simp only [ModelAPIView.serialize_qs, truthyIdOpt, Bool.or_self,
      Bool.false_eq_true, if_false, hps, computeOffset, hn]
    rw [qsSlice_eq_drop_take _ _ _ hoff hk]
    rfl
  · intro hn
    simp only [ModelAPIView.serialize_qs, truthyIdOpt, Bool.or_self,
      Bool.false_eq_true, if_false, hps, computeOffset, hn]
    rw [qsSlice_eq_drop_take _ _ _ le_rfl hk]
    simp
  · intro n hn hlt hkpos
    have hneg : (n - 1) * k < 0 := mul_neg_of_neg_of_pos (by omega) hkpos
    simp only [ModelAPIView.serialize_qs, truthyIdOpt, Bool.or_self,
      Bool.false_eq_true, if_false, hps, computeOffset, hn]
    unfold qsSlice
    rw [if_pos (Or.inl hneg)]
    rfl
  · intro n hn h1
    have hoff : 0 ≤ (n - 1) * k := mul_nonneg (by omega) hk
    simp only [CustomModelAPIView.serialize_qs, truthyIdOpt, Bool.or_self,
      Bool.false_eq_true, if_false, hps, computeOffset, hn]
    rw [qsSlice_eq_drop_take _ _ _ hoff hk]
    rfl

/-- C2 witness: page 2 at page size 2 over three records returns exactly
the third record. -/
theorem C2_witness :
    ModelAPIView.serialize_qs cfgPag none false recs3 [("p", "2")]
      = some (.many [[("id", "3")]]) := by
  have h := (C2_amended_pagination cfgPag recs3 [("p", "2")] 2 rfl
    (by decide)).1 2 (by decide) (by decide)
  rw [h]
  decide

/-- C3 counterexample: for a multipart request the success payload is not
wrapped in the textarea fragment and is served as text/plain, not
text/html — the claim holds only for the error payload. -/
theorem C3_counterexample :
    success_response "form-multipart" (some "[1]")
      = ⟨"[1]", 200, "text/plain"⟩
    ∧ (success_response "form-multipart" (some "[1]")).mimetype
        ≠ "text/html" := by
  decide

/-- C3 (amended): for a multipart request only the error payload is wrapped
in the textarea fragment carrying the real status and returned with HTTP
200 and text/html; the success payload is returned unwrapped with HTTP 200
and text/plain media type. -/
theorem C3_amended_multipart_wrapping (data : Option String) (status : Nat) :
    error_response "form-multipart" data status
      = ⟨"<textarea status=\x27" ++ toString status ++ "\x27>"
          ++ jsonErrorBody data ++ "</textarea>", 200, "text/html"⟩
    ∧ success_response "form-multipart" data
      = ⟨data.getD "", 200, "text/plain"⟩ := by
  exact ⟨rfl, by cases data <;> rfl⟩

/-- C4 counterexample: a PUT request dispatched without a record identifier
produces HTTP status 404, not the claimed 405. -/
theorem C4_counterexample :
    (BackboneAPIView.dispatch impl0 putReq none).statusOf = some 404
    ∧ some 404 ≠ some (405 : Nat) := by
  decide

/-- C4 (amended): for every request whose effective verb is PUT with no
record identifier present, `_put` raises Http404 and the response has HTTP
status 404 (section 4.2's mapping), not the 405 of the section 6 table. -/
theorem C4_amended_put_without_id (impl : Impl) (r : Request)
    (h : effectiveVerb r = "put") :
    BackboneAPIView.dispatch impl r none = .raised404 := by
  simp [BackboneAPIView.dispatch, h, BackboneAPIView._put, http_method_names]

/-- C4 witness: the amended statement at a concrete PUT request. -/
theorem C4_witness :
    BackboneAPIView.dispatch impl0 putReq none = HttpOutcome.raised404 :=
  C4_amended_put_without_id impl0 putReq (by decide)

/-- C5 counterexample: on an empty record set,
`CustomModelAPIView.serialize_qs` with single=true raises (IndexError on
`queryset[0]`) instead of returning the empty mapping the claim states. -/
theorem C5_counterexample :
    CustomModelAPIView.serialize_qs cfg0 none true [] [] = none
    ∧ (none : Option Serialized) ≠ some (.single []) := by
  decide

/-- C5 (amended): with single=true, `ModelAPIView.serialize_qs` returns the
first record's projected field mapping and the empty mapping on an empty
record set, while `CustomModelAPIView.serialize_qs` returns the first
record's serialized mapping but raises on an empty record set. -/
theorem C5_amended_single_serialization (cfg : MCfg) (gp : Data)
    (r : Record) (rest : List Record) :
    ModelAPIView.serialize_qs cfg none true [] gp = some (.single [])
    ∧ ModelAPIView.serialize_qs cfg none true (r :: rest) gp
        = some (.single (projectFields cfg.serialize_fields r))
    ∧ CustomModelAPIView.serialize_qs cfg none true [] gp = none
    ∧ CustomModelAPIView.serialize_qs cfg none true (r :: rest) gp
        = some (.single (CustomModelAPIView.serialize_item
            cfg.serialize_fields r)) := by
  refine ⟨?_, ?_, ?_, ?_⟩ <;>
    simp [ModelAPIView.serialize_qs, CustomModelAPIView.serialize_qs,
      truthyIdOpt]

/-- C6: with an update form configured, `ModelAPIView.update` fails with
status 404 both when no record matches the id and when a record matches
but the authorizer denies the update action — the two outcomes are the
identical failure value, so denial is indistinguishable from not-found. -/
theorem C6_update_denied_as_not_found (cfg : MCfg) (base_qs : List Record)
    (perm : Option Record → String → Bool)
    (validate : Data → Option Data → Record → FormResult)
    (refetch : Nat → List Record) (gp : Data) (id : Nat) (data : Data)
    (files : Option Data) :
    (base_qs.filter (fun r => r.pk == id) = [] →
      ModelAPIView.update cfg true base_qs perm validate refetch gp id data
        files = .fail 404 none)
    ∧ (∀ inst, base_qs.filter (fun r => r.pk == id) = [inst] →
      perm (some inst) "update" = false →
      ModelAPIView.update cfg true base_qs perm validate refetch gp id data
        files = .fail 404 none) := by
  constructor
  · intro h
    simp [ModelAPIView.update, h]
  · intro inst h hperm
    simp [ModelAPIView.update, h, hperm]

/-- C6 witness: a one-record store, an id that misses and an id that hits
under a denying authorizer both produce the 404 failure. -/
theorem C6_witness :
    ModelAPIView.update cfg0 true [rec1] permDenyAll editFormInvalid
      refetchNone [] 2 [] none = .fail 404 none
    ∧ ModelAPIView.update cfg0 true [rec1] permDenyAll editFormInvalid
      refetchNone [] 1 [] none = .fail 404 none :=
  ⟨(C6_update_denied_as_not_found cfg0 [rec1] permDenyAll editFormInvalid
      refetchNone [] 2 [] none).1 (by decide),
   (C6_update_denied_as_not_found cfg0 [rec1] permDenyAll editFormInvalid
      refetchNone [] 1 [] none).2 rec1 (by decide) rfl⟩

/-- C7: `ModelAPIView.create` fails with status 501 when no creation form
is configured, with 403 when the authorizer denies the create action (no
record passed), and with 400 carrying the field-level errors when
validation fails. -/
theorem C7_create_error_statuses (cfg : MCfg)
    (perm : Option Record → String → Bool)
    (validate : Data → Option Data → FormResult)
    (refetch : Nat → List Record) (gp : Data) (data : Data)
    (files : Option Data) (errs : Data) :
    (ModelAPIView.create cfg false perm validate refetch gp data files
       = .fail 501 none)
    ∧ (perm none "create" = false →
       ModelAPIView.create cfg true perm validate refetch gp data files
         = .fail 403 none)
    ∧ (perm none "create" = true → validate data files = .invalid errs →
       ModelAPIView.create cfg true perm validate refetch gp data files
         = .fail 400 (some errs)) := by
  refine ⟨?_, ?_, ?_⟩
  · simp [ModelAPIView.create]
  · intro h
    simp [ModelAPIView.create, h]
  · intro h hv
    simp [ModelAPIView.create, h, hv]

/-- C7 witness: the three failure paths at concrete collaborators. -/
theorem C7_witness :
    ModelAPIView.create cfg0 false permAllowAll addFormInvalid refetchNone
      [] [] none = .fail 501 none
    ∧ ModelAPIView.create cfg0 true permDenyAll addFormInvalid refetchNone
      [] [] none = .fail 403 none
    ∧ ModelAPIView.create cfg0 true permAllowAll addFormInvalid refetchNone
      [] [] none = .fail 400 (some []) :=
  ⟨(C7_create_error_statuses cfg0 permAllowAll addFormInvalid refetchNone
      [] [] none []).1,
   (C7_create_error_statuses cfg0 permDenyAll addFormInvalid refetchNone
      [] [] none []).2.1 rfl,
   (C7_create_error_statuses cfg0 permAllowAll addFormInvalid refetchNone
      [] [] none []).2.2 rfl rfl⟩

/-- C8: a POST whose parsed POST fields carry "_method" with a value that
lower-cases to "put" dispatches exactly like the same request issued as a
native PUT: the whole responses are equal for every implementation, id and
body. -/
theorem C8_method_override_put (impl : Impl) (method ct : String)
    (pd fl : Data) (raw : Option Data) (gp : Data) (kid : Option String)
    (v : String) (hm : pyLower method = "post")
    (hv : dataGet pd "_method" = some v) (hp : pyLower v = "put") :
    BackboneAPIView.dispatch impl ⟨method, ct, pd, fl, raw, gp⟩ kid
      = BackboneAPIView.dispatch impl ⟨"PUT", ct, pd, fl, raw, gp⟩ kid := by
  have h1 : effectiveVerb ⟨method, ct, pd, fl, raw, gp⟩ = "put" := by
    simp [effectiveVerb, hm, hv, hp]
  have h2 : effectiveVerb ⟨"PUT", ct, pd, fl, raw, gp⟩ = "put" := by
    have hPUT : pyLower "PUT" = "put" := by decide
    simp [effectiveVerb, hPUT]
  simp only [BackboneAPIView.dispatch, h1, h2]
  simp [http_method_names, BackboneAPIView._put, get_request_data]

/-- C8 witness: a concrete POST with _method=PUT and a valid id produces
the same response as the native PUT. -/
theorem C8_witness :
    BackboneAPIView.dispatch impl0
      ⟨"POST", "application/json", [("_method", "PUT")], [], some [], []⟩
      (some "1")
      = BackboneAPIView.dispatch impl0
      ⟨"PUT", "application/json", [("_method", "PUT")], [], some [], []⟩
      (some "1") :=
  C8_method_override_put impl0 "POST" "application/json"
    [("_method", "PUT")] [] (some []) [] (some "1") "PUT"
    (by decide) (by decide) (by decide)

/-- C9: `ModelAPIView.read_collection` consults the authorizer on the first
element unconditionally: on an empty collection the element access raises
(instead of yielding an empty list or a denial), and on a non-empty
collection a denial on the first element yields the not-found signal. -/
theorem C9_read_collection_first_element (cfg : MCfg)
    (perm : Option Record → String → Bool) (gp : Data) (r : Record)
    (rest : List Record) (h : perm (some r) "read_collection" = false) :
    ModelAPIView.read_collection cfg [] perm gp = .exn
    ∧ ModelAPIView.read_collection cfg (r :: rest) perm gp = .ok none := by
  constructor
  · simp [ModelAPIView.read_collection]
  · simp [ModelAPIView.read_collection, h]

/-- C9 witness: the empty collection raises; a denying authorizer on a
one-record collection yields the not-found signal. -/
theorem C9_witness :
    ModelAPIView.read_collection cfg0 [] permDenyAll [] = .exn
    ∧ ModelAPIView.read_collection cfg0 [rec1] permDenyAll [] = .ok none :=
  C9_read_collection_first_element cfg0 permDenyAll [] rec1 [] rfl

/-- C10: when a GET's read succeeds but yields an empty payload (empty
mapping or empty list), `_get` treats the falsy result as not-found and
answers HTTP 404 with an empty body. -/
theorem C10_empty_payload_is_404 (impl : Impl) (kid : Option String)
    (s : Serialized)
    (hread : BackboneAPIView.read impl kid = .ok (some s))
    (hempty : s = .single [] ∨ s = .many []) :
    BackboneAPIView._get impl kid = .resp ⟨"", 404, "application/json"⟩ := by
  unfold BackboneAPIView._get
  rw [hread]
  rcases hempty with h | h <;> subst h <;> rfl

/-- C10 witness: a read that succeeds with an empty mapping produces the
empty-body 404. -/
theorem C10_witness :
    BackboneAPIView._get implEmptyRead (some "1")
      = .resp ⟨"", 404, "application/json"⟩ :=
  C10_empty_payload_is_404 implEmptyRead (some "1") (.single [])
    (by decide) (Or.inl rfl)

end Djangbone

